import Mathlib

/-!
Shallow embedding of the order subsystem of the Backend-starter repository:
the `Order` model (Joi validation schemas, `calculateTotal`) and the
`OrderRepository` operations `create`, `updateStatus`, `updatePaymentStatus`.

Monetary values are modelled as exact rationals (`Rat`), with the orders
table's DECIMAL(10,2) columns modelled by rounding to two decimals (`dec2`)
at the header INSERT, so the row `create` re-reads and returns carries
two-decimal amounts; the SQL store is a record of in-memory tables
(`products`, `orders`, `order_items`); the MySQL transaction of
`OrderRepository.create` is modelled by threading a working store and
discarding it (returning the original store) on the rollback path.
`CURRENT_TIMESTAMP` is an explicit `now : Nat` parameter, and the generated
order number (`Date.now` + random suffix) is an explicit `String` parameter.
JavaScript truthiness tests on optional strings (`if (value.notes)`) are
modelled as `(·.getD "") ≠ ""`, and on optional numbers (`value.tax_amount ||`)
as the none-or-zero test.
-/

/-- Order.STATUS: the seven order lifecycle statuses. -/
inductive OrderStatus
  | pending
  | confirmed
  | processing
  | shipped
  | delivered
  | cancelled
  | refunded
deriving DecidableEq, Repr

/-- Order.PAYMENT_STATUS: the five payment statuses
('partially_refunded' is the fifth). -/
inductive PaymentStatus
  | pending
  | paid
  | failed
  | refunded
  | partRefunded
deriving DecidableEq, Repr

/-- Mirror of joi.string().valid(...Object.values(Order.STATUS)). -/
def parseStatus : String → Option OrderStatus
  | "pending" => some .pending
  | "confirmed" => some .confirmed
  | "processing" => some .processing
  | "shipped" => some .shipped
  | "delivered" => some .delivered
  | "cancelled" => some .cancelled
  | "refunded" => some .refunded
  | _ => none

/-- The string value of each order status constant. -/
def statusToString : OrderStatus → String
  | .pending => "pending"
  | .confirmed => "confirmed"
  | .processing => "processing"
  | .shipped => "shipped"
  | .delivered => "delivered"
  | .cancelled => "cancelled"
  | .refunded => "refunded"

/-- Mirror of joi.string().valid(...Object.values(Order.PAYMENT_STATUS)). -/
def parsePaymentStatus : String → Option PaymentStatus
  | "pending" => some .pending
  | "paid" => some .paid
  | "failed" => some .failed
  | "refunded" => some .refunded
  | "partially_refunded" => some .partRefunded
  | _ => none

/-- Shipping/billing address object of Order.createSchema. -/
structure Address where
  first_name : String
  last_name : String
  address_line_1 : String
  address_line_2 : String
  city : String
  state : String
  postal_code : String
  country : String
  phone : String
deriving DecidableEq, Repr

/-- One requested line item of Order.createSchema's items array. -/
structure OrderItemReq where
  product_id : Nat
  quantity : Nat
  price : Rat
deriving DecidableEq, Repr

/-- An order-creation payload as received by OrderRepository.create.
Optional Joi keys are `Option`; `tax_amount` is a key that does NOT appear in
Order.createSchema (Joi rejects unknown keys by default), carried here so that
supplying it can be expressed. -/
structure CreateReq where
  user_id : Nat
  items : List OrderItemReq
  shipping_address : Address
  billing_address : Option Address
  payment_method : String
  notes : Option String
  discount_amount : Option Rat
  shipping_amount : Option Rat
  tax_amount : Option Rat
deriving DecidableEq, Repr

/-- The validated value produced by Order.validateCreate (Joi defaults
applied: notes '', discount_amount 0, shipping_amount 0). -/
structure CreateVal where
  user_id : Nat
  items : List OrderItemReq
  shipping_address : Address
  billing_address : Option Address
  payment_method : String
  notes : String
  discount_amount : Rat
  shipping_amount : Rat
  tax_amount : Option Rat
deriving DecidableEq, Repr

/-- A rational that is representable with at most two decimal places
(joi number().precision(2) after conversion): its reduced denominator
divides 100. -/
def twoDecimal (q : Rat) : Bool := q.den ∣ 100

/-- Joi pattern [\+]?[1-9][\d]\x7b0,15\x7d for address phone numbers. -/
def phoneOk (s : String) : Bool :=
  let cs := match s.data with
    | '+' :: rest => rest
    | cs => cs
  match cs with
  | [] => false
  | c :: rest => ('1' ≤ c && c ≤ '9') && rest.all (fun d => '0' ≤ d && d ≤ '9')
      && rest.length ≤ 15

/-- Address sub-schema of Order.createSchema: required non-empty strings with
max lengths, address_line_2 and phone allow '', country defaulted 'Nigeria'. -/
def validAddress (a : Address) : Bool :=
  (a.first_name ≠ "" && a.first_name.length ≤ 100) &&
  (a.last_name ≠ "" && a.last_name.length ≤ 100) &&
  (a.address_line_1 ≠ "" && a.address_line_1.length ≤ 255) &&
  (a.address_line_2.length ≤ 255) &&
  (a.city ≠ "" && a.city.length ≤ 100) &&
  (a.state ≠ "" && a.state.length ≤ 100) &&
  (a.postal_code ≠ "" && a.postal_code.length ≤ 20) &&
  (a.country ≠ "" && a.country.length ≤ 100) &&
  (a.phone = "" || phoneOk a.phone)

/-- Per-item checks of the items sub-schema: positive product_id, integer
quantity ≥ 1, price ≥ 0 with precision(2). -/
def itemErrors (i : OrderItemReq) : List String :=
  (if 0 < i.product_id then [] else ["\"product_id\" must be a positive number"]) ++
  (if 1 ≤ i.quantity then [] else ["\"quantity\" must be greater than or equal to 1"]) ++
  (if 0 ≤ i.price ∧ twoDecimal i.price then [] else ["\"price\" must be a valid amount"])

/-- All Joi error messages of Order.createSchema on a payload
(abortEarly: false collects every failure); an explicitly supplied
tax_amount is an unknown key and is rejected. -/
def createErrors (req : CreateReq) : List String :=
  (if 0 < req.user_id then [] else ["User ID is required"]) ++
  (if req.items.isEmpty then ["At least one item is required"]
   else req.items.foldr (fun i acc => itemErrors i ++ acc) []) ++
  (if validAddress req.shipping_address then [] else ["\"shipping_address\" is invalid"]) ++
  (match req.billing_address with
   | some b => if validAddress b then [] else ["\"billing_address\" is invalid"]
   | none => []) ++
  (if req.payment_method = "card" || req.payment_method = "bank_transfer" ||
      req.payment_method = "cash_on_delivery" || req.payment_method = "wallet"
   then [] else ["\"payment_method\" must be one of [card, bank_transfer, cash_on_delivery, wallet]"]) ++
  (match req.notes with
   | some n => if n.length ≤ 1000 then []
       else ["\"notes\" length must be less than or equal to 1000 characters long"]
   | none => []) ++
  (match req.discount_amount with
   | some d => if 0 ≤ d ∧ twoDecimal d then [] else ["\"discount_amount\" must be a valid amount"]
   | none => []) ++
  (match req.shipping_amount with
   | some s => if 0 ≤ s ∧ twoDecimal s then [] else ["\"shipping_amount\" must be a valid amount"]
   | none => []) ++
  (match req.tax_amount with
   | some _ => ["\"tax_amount\" is not allowed"]
   | none => [])

/-- Order.validateCreate: Joi validation of the creation payload, applying
the schema defaults on success and joining all messages on failure. -/
def validateCreate (req : CreateReq) : Except String CreateVal :=
  match createErrors req with
  | [] => .ok
      { user_id := req.user_id
        items := req.items
        shipping_address := req.shipping_address
        billing_address := req.billing_address
        payment_method := req.payment_method
        notes := req.notes.getD ""
        discount_amount := (req.discount_amount).getD 0
        shipping_amount := (req.shipping_amount).getD 0
        tax_amount := req.tax_amount }
  | es => .error ("Validation error: " ++ String.intercalate ", " es)

/-- Payload of OrderRepository.updateStatus (Order.updateStatusSchema). -/
structure StatusUpdateReq where
  status : String
  notes : Option String
deriving DecidableEq, Repr

/-- Validated value of Order.validateStatusUpdate. -/
structure StatusUpdateVal where
  status : OrderStatus
  notes : Option String
deriving DecidableEq, Repr

/-- Order.validateStatusUpdate: status must be one of the seven statuses,
notes is optional, may be empty and is capped at 1000 characters. -/
def validateStatusUpdate (req : StatusUpdateReq) : Except String StatusUpdateVal :=
  match parseStatus req.status with
  | none => .error "Validation error: \"status\" must be one of [pending, confirmed, processing, shipped, delivered, cancelled, refunded]"
  | some s =>
    match req.notes with
    | some n =>
      if n.length ≤ 1000 then .ok ⟨s, some n⟩
      else .error "Validation error: \"notes\" length must be less than or equal to 1000 characters long"
    | none => .ok ⟨s, none⟩

/-- Payload of OrderRepository.updatePaymentStatus (Order.updatePaymentSchema). -/
structure PaymentUpdateReq where
  payment_status : String
  payment_reference : Option String
  notes : Option String
deriving DecidableEq, Repr

/-- Validated value of Order.validatePaymentUpdate. -/
structure PaymentUpdateVal where
  payment_status : PaymentStatus
  payment_reference : Option String
  notes : Option String
deriving DecidableEq, Repr

/-- Order.validatePaymentUpdate: payment_status from the five-value enum,
payment_reference optional (max 255, may be empty), notes optional
(max 1000, may be empty). -/
def validatePaymentUpdate (req : PaymentUpdateReq) : Except String PaymentUpdateVal :=
  match parsePaymentStatus req.payment_status with
  | none => .error "Validation error: \"payment_status\" must be one of [pending, paid, failed, refunded, partially_refunded]"
  | some p =>
    match req.payment_reference with
    | some r =>
      if r.length ≤ 255 then
        match req.notes with
        | some n =>
          if n.length ≤ 1000 then .ok ⟨p, some r, some n⟩
          else .error "Validation error: \"notes\" length must be less than or equal to 1000 characters long"
        | none => .ok ⟨p, some r, none⟩
      else .error "Validation error: \"payment_reference\" length must be less than or equal to 255 characters long"
    | none =>
      match req.notes with
      | some n =>
        if n.length ≤ 1000 then .ok ⟨p, none, some n⟩
        else .error "Validation error: \"notes\" length must be less than or equal to 1000 characters long"
      | none => .ok ⟨p, none, none⟩

/-- A row of the products table (the columns OrderRepository.create reads). -/
structure Product where
  id : Nat
  name : String
  sku : String
deriving DecidableEq, Repr

/-- A stored order header row (orders table). -/
structure Order where
  id : Nat
  user_id : Nat
  order_number : String
  status : OrderStatus
  total_amount : Rat
  subtotal : Rat
  tax_amount : Rat
  shipping_amount : Rat
  discount_amount : Rat
  currency : String
  payment_status : PaymentStatus
  payment_method : String
  payment_reference : Option String
  shipping_address : Address
  billing_address : Option Address
  notes : String
  shipped_at : Option Nat
  delivered_at : Option Nat
deriving DecidableEq, Repr

/-- A row of the order_items table. -/
structure OrderItemRow where
  order_id : Nat
  product_id : Nat
  product_name : String
  product_sku : String
  quantity : Nat
  unit_price : Rat
  total_price : Rat
deriving DecidableEq, Repr

/-- The relational store: products, order headers, order items, and the
AUTO_INCREMENT counter for orders.id. The orders table's monetary columns
are DECIMAL(10,2) (orders migration), which create models by rounding the
header row's monetary fields with Order.stored before appending it. -/
structure Store where
  products : List Product
  orders : List Order
  orderItems : List OrderItemRow
  nextOrderId : Nat
deriving DecidableEq, Repr

/-- SELECT name, sku FROM products WHERE id = ? (first matching row). -/
def findProduct (ps : List Product) (pid : Nat) : Option Product :=
  ps.find? (fun p => p.id = pid)

/-- SELECT * FROM orders WHERE id = ? (first matching row), as used by
OrderRepository.findById. -/
def findOrder (st : Store) (id : Nat) : Option Order :=
  st.orders.find? (fun o => o.id = id)

/-- Order.calculateTotal: total_amount :=
subtotal + tax_amount + shipping_amount - discount_amount. -/
def Order.calculateTotal (o : Order) : Order :=
  { o with total_amount := o.subtotal + o.tax_amount + o.shipping_amount - o.discount_amount }

/-- DECIMAL(10,2) column storage (orders table migration): MySQL rounds the
inserted value to the nearest hundredth. Ties are modelled as rounding up,
which agrees with MySQL's half-away-from-zero on the non-negative amounts
this subsystem computes. -/
def dec2 (q : Rat) : Rat := ((round (q * 100) : Int) : Rat) / 100

/-- The orders row as persisted: the five monetary columns are
DECIMAL(10,2), so the in-memory values are rounded to two decimals at
INSERT; OrderRepository.create re-reads and returns this row. -/
def Order.stored (o : Order) : Order :=
  { o with
    total_amount := dec2 o.total_amount
    subtotal := dec2 o.subtotal
    tax_amount := dec2 o.tax_amount
    shipping_amount := dec2 o.shipping_amount
    discount_amount := dec2 o.discount_amount }

/-- The item-insertion loop of OrderRepository.create: for each requested
item, resolve the product's name and sku; a missing product throws
"Product with ID <id> not found", otherwise an order_items row is inserted
into the working (transactional) store. -/
def insertItems (st : Store) (orderId : Nat) : List OrderItemReq → Except String Store
  | [] => .ok st
  | i :: rest =>
    match findProduct st.products i.product_id with
    | none => .error ("Product with ID " ++ toString i.product_id ++ " not found")
    | some p =>
      let row : OrderItemRow :=
        { order_id := orderId
          product_id := i.product_id
          product_name := p.name
          product_sku := p.sku
          quantity := i.quantity
          unit_price := i.price
          total_price := i.price * (i.quantity : Rat) }
      insertItems { st with orderItems := st.orderItems ++ [row] } orderId rest

/-- The subtotal loop of OrderRepository.create:
for (const item of value.items) subtotal += item.price * item.quantity. -/
def subtotalOf (items : List OrderItemReq) : Rat :=
  items.foldl (fun acc i => acc + i.price * (i.quantity : Rat)) 0

/-- order.tax_amount = value.tax_amount || subtotal * 0.075 (7.5% VAT):
JavaScript || takes the fallback when tax_amount is undefined or 0. -/
def taxOf (taxField : Option Rat) (subtotal : Rat) : Rat :=
  match taxField with
  | some t => if t = 0 then subtotal * 0.075 else t
  | none => subtotal * 0.075

/-- OrderRepository.create: validate, compute subtotal / tax (7.5% VAT
unless a truthy tax_amount survived validation) / total, insert the header
row (its monetary columns are DECIMAL(10,2), so the stored values are
rounded to two decimals), insert the item rows, commit, and return the row
re-read by findById; any thrown error rolls the transaction back, leaving
the original store. Returns the outcome together with the store
afterwards. -/
def create (st : Store) (req : CreateReq) (ordNum : String) :
    Except String Order × Store :=
  match validateCreate req with
  | .error msg => (.error msg, st)
  | .ok v =>
    let subtotal := subtotalOf v.items
    let tax : Rat := taxOf v.tax_amount subtotal
    let order : Order := Order.calculateTotal
      { id := st.nextOrderId
        user_id := v.user_id
        order_number := ordNum
        status := .pending
        total_amount := 0
        subtotal := subtotal
        tax_amount := tax
        shipping_amount := v.shipping_amount
        discount_amount := v.discount_amount
        currency := "NGN"
        payment_status := .pending
        payment_method := v.payment_method
        payment_reference := none
        shipping_address := v.shipping_address
        billing_address := v.billing_address
        notes := v.notes
        shipped_at := none
        delivered_at := none }
    let stored : Order := order.stored
    let st1 : Store :=
      { st with orders := st.orders ++ [stored], nextOrderId := st.nextOrderId + 1 }
    match insertItems st1 stored.id v.items with
    | .error msg => (.error msg, st)
    | .ok st2 => (.ok stored, st2)

/-- The field updates of OrderRepository.updateStatus applied to the looked-up
order row: status unconditionally, shipped_at on 'shipped', delivered_at on
'delivered' with shipped_at backfilled when still NULL, notes when truthy. -/
def applyStatusUpdate (order : Order) (v : StatusUpdateVal) (now : Nat) : Order :=
  let o1 := { order with status := v.status }
  let o2 := if v.status = .shipped then { o1 with shipped_at := some now } else o1
  let o3 :=
    if v.status = .delivered then
      let od := { o2 with delivered_at := some now }
      if order.shipped_at = none then { od with shipped_at := some now } else od
    else o2
  if (v.notes.getD "") = "" then o3 else { o3 with notes := v.notes.getD "" }

/-- OrderRepository.updateStatus: validate, look the order up, apply the
field updates, and persist the single UPDATE on the row with that id. -/
def updateStatus (st : Store) (id : Nat) (req : StatusUpdateReq) (now : Nat) :
    Except String (Order × Store) :=
  match validateStatusUpdate req with
  | .error msg => .error msg
  | .ok v =>
    match findOrder st id with
    | none => .error "Order not found"
    | some order =>
      let o4 := applyStatusUpdate order v now
      let st2 : Store :=
        { st with orders := st.orders.map (fun o => if o.id = id then o4 else o) }
      .ok (o4, st2)

/-- The field updates of OrderRepository.updatePaymentStatus applied to the
looked-up order row: payment_status unconditionally, payment_reference and
notes only when truthy; no timestamp side effects. -/
def applyPaymentUpdate (order : Order) (v : PaymentUpdateVal) : Order :=
  let o1 := { order with payment_status := v.payment_status }
  let o2 := if (v.payment_reference.getD "") = "" then o1
    else { o1 with payment_reference := some (v.payment_reference.getD "") }
  if (v.notes.getD "") = "" then o2 else { o2 with notes := v.notes.getD "" }

/-- OrderRepository.updatePaymentStatus: validate, look the order up, apply
the field updates, and persist the single UPDATE on the row with that id. -/
def updatePaymentStatus (st : Store) (id : Nat) (req : PaymentUpdateReq) :
    Except String (Order × Store) :=
  match validatePaymentUpdate req with
  | .error msg => .error msg
  | .ok v =>
    match findOrder st id with
    | none => .error "Order not found"
    | some order =>
      let o3 := applyPaymentUpdate order v
      let st2 : Store :=
        { st with orders := st.orders.map (fun o => if o.id = id then o3 else o) }
      .ok (o3, st2)

/-- Decidable equality of outcomes, so that concrete runs can be checked
by `decide`. -/
instance instDecEqExcept {e a : Type} [DecidableEq e] [DecidableEq a] :
    DecidableEq (Except e a) := fun x y =>
  match x, y with
  | .error u, .error v => decidable_of_iff (u = v) (by simp)
  | .error _, .ok _ => isFalse (by simp)
  | .ok _, .error _ => isFalse (by simp)
  | .ok u, .ok v => decidable_of_iff (u = v) (by simp)

/-- A well-formed shipping address for concrete payloads. -/
def addr0 : Address :=
  { first_name := "Ada", last_name := "Obi", address_line_1 := "1 Marina Road",
    address_line_2 := "", city := "Lagos", state := "Lagos",
    postal_code := "100001", country := "Nigeria", phone := "" }

/-- The spec scenario payload: items [(product 1, quantity 2, price 10.00)],
shipping_amount 0, discount_amount 0, no explicit tax. -/
def req0 : CreateReq :=
  { user_id := 1, items := [{ product_id := 1, quantity := 2, price := 10 }],
    shipping_address := addr0, billing_address := none,
    payment_method := "card", notes := none, discount_amount := some 0,
    shipping_amount := some 0, tax_amount := none }

/-- A store holding the one product the scenario references. -/
def st0 : Store :=
  { products := [{ id := 1, name := "Widget", sku := "SKU-1" }],
    orders := [], orderItems := [], nextOrderId := 1 }

/-- The scenario payload with a second item whose product id 99 has no row. -/
def reqMissing : CreateReq :=
  { req0 with items := [{ product_id := 1, quantity := 2, price := 10 },
                        { product_id := 99, quantity := 1, price := 5 }] }

/-- The scenario payload with an explicitly supplied tax_amount. -/
def reqTax : CreateReq := { req0 with tax_amount := some 5 }

/-- The scenario payload with a single unit-price-1 item. -/
def reqUnit : CreateReq :=
  { req0 with items := [{ product_id := 1, quantity := 1, price := 1 }] }

/-- Modelled from the spec: round(x, 2) — round to the nearest two-decimal
value, halves rounding up. -/
def roundTo2dp (q : Rat) : Rat := ((round (q * 100) : Int) : Rat) / 100


/-- The order row produced by the spec scenario run. -/
def orderScenario : Order :=
  { id := 1, user_id := 1, order_number := "ORD-1", status := .pending,
    total_amount := 21.5, subtotal := 20, tax_amount := 1.5,
    shipping_amount := 0, discount_amount := 0, currency := "NGN",
    payment_status := .pending, payment_method := "card", payment_reference := none,
    shipping_address := addr0, billing_address := none, notes := "",
    shipped_at := none, delivered_at := none }

/-- The order_items row produced by the spec scenario run. -/
def itemRowScenario : OrderItemRow :=
  { order_id := 1, product_id := 1, product_name := "Widget",
    product_sku := "SKU-1", quantity := 2, unit_price := 10, total_price := 20 }

/-- The store after the spec scenario run. -/
def storeScenario : Store :=
  { products := [{ id := 1, name := "Widget", sku := "SKU-1" }],
    orders := [orderScenario],
    orderItems := [itemRowScenario],
    nextOrderId := 2 }

/-- A stored order with integer monetary fields and prior notes "old". -/
def ordOld : Order :=
  { id := 1, user_id := 1, order_number := "ORD-A", status := .pending,
    total_amount := 21, subtotal := 20, tax_amount := 1, shipping_amount := 0,
    discount_amount := 0, currency := "NGN", payment_status := .pending,
    payment_method := "card", payment_reference := none, shipping_address := addr0,
    billing_address := none, notes := "old", shipped_at := none, delivered_at := none }

/-- A one-order store around ordOld. -/
def stOld : Store :=
  { products := [{ id := 1, name := "Widget", sku := "SKU-1" }],
    orders := [ordOld], orderItems := [], nextOrderId := 2 }

/-- ordOld after a status update to confirmed. -/
def ordOldConfirmed : Order := { ordOld with status := .confirmed }

/-- stOld after that update. -/
def stOldConfirmed : Store := { stOld with orders := [ordOldConfirmed] }

/-- ordOld after a payment update to paid (no reference). -/
def ordOldPaid : Order := { ordOld with payment_status := .paid }

/-- stOld after that update. -/
def stOldPaid : Store := { stOld with orders := [ordOldPaid] }

/-- ordOld after update_status(id, delivered) at time 42: both timestamps
stamped. -/
def ordOldDelivered : Order :=
  { ordOld with status := .delivered, shipped_at := some 42, delivered_at := some 42 }

/-- stOld after that update. -/
def stOldDelivered : Store := { stOld with orders := [ordOldDelivered] }

/-- ordOld after a confirmed update carrying replacing notes. -/
def ordOldNoted : Order :=
  { ordOld with status := .confirmed, notes := "call before delivery" }

/-- stOld after that update. -/
def stOldNoted : Store := { stOld with orders := [ordOldNoted] }

/-- ordOld after the paid update carrying reference TXN123. -/
def ordOldPaidRef : Order :=
  { ordOld with payment_status := .paid, payment_reference := some "TXN123" }

/-- stOld after that update. -/
def stOldPaidRef : Store := { stOld with orders := [ordOldPaidRef] }

/-- A delivered order with both timestamps set. -/
def ordDone : Order :=
  { ordOld with status := .delivered, shipped_at := some 10, delivered_at := some 11 }

/-- A one-order store around ordDone. -/
def stDone : Store := { stOld with orders := [ordDone] }

/-- ordDone moved back to pending: timestamps survive. -/
def ordDonePending : Order := { ordDone with status := .pending }

/-- stDone after that update. -/
def stDonePending : Store := { stDone with orders := [ordDonePending] }

/-- ordDone after a payment update to paid. -/
def ordDonePaid : Order := { ordDone with payment_status := .paid }

/-- stDone after that update. -/
def stDonePaid : Store := { stDone with orders := [ordDonePaid] }

/-- ordDone after a repeated shipped transition at time 99: shipped_at is
overwritten with the new time. -/
def ordDoneShipped : Order := { ordDone with status := .shipped, shipped_at := some 99 }

/-- stDone after that update. -/
def stDoneShipped : Store := { stDone with orders := [ordDoneShipped] }

/-- The product id of the first requested item (in iteration order of the
creation loop) whose product id has no row in the products table. -/
def firstMissingPid (ps : List Product) : List OrderItemReq → Option Nat
  | [] => none
  | i :: rest =>
    match findProduct ps i.product_id with
    | none => some i.product_id
    | some _ => firstMissingPid ps rest


/-- A row found by id carries that id. -/
theorem findOrder_id {st : Store} {i : Nat} {o : Order}
    (h : findOrder st i = some o) : o.id = i := by
  unfold findOrder at h
  simpa using List.find?_some h

/-- After the UPDATE ... WHERE id = ? write-back, looking the id up again
returns the updated row. -/
theorem find_map_update (l : List Order) (i : Nat) (o0 g : Order)
    (h : l.find? (fun o => o.id = i) = some o0) (hg : g.id = i) :
    (l.map (fun o => if o.id = i then g else o)).find? (fun o => o.id = i) = some g := by
  induction l with
  | nil => simp at h
  | cons a l ih =>
    by_cases ha : a.id = i
    · simp [ha, hg]
    · rw [List.find?_cons_of_neg _ (by simpa using ha)] at h
      have hmap : (a :: l).map (fun o => if o.id = i then g else o) =
          a :: l.map (fun o => if o.id = i then g else o) := by simp [ha]
      rw [hmap, List.find?_cons_of_neg _ (by simpa using ha)]
      exact ih h

/-- Inversion of Order.validateCreate on success: no schema error was
collected and the validated value is the payload after Joi defaults. -/
theorem validateCreate_ok {req : CreateReq} {v : CreateVal}
    (h : validateCreate req = .ok v) :
    createErrors req = [] ∧
    v = { user_id := req.user_id, items := req.items,
          shipping_address := req.shipping_address,
          billing_address := req.billing_address,
          payment_method := req.payment_method, notes := req.notes.getD "",
          discount_amount := req.discount_amount.getD 0,
          shipping_amount := req.shipping_amount.getD 0,
          tax_amount := req.tax_amount } := by
  unfold validateCreate at h
  cases hc : createErrors req with
  | nil => rw [hc] at h; simp at h; exact ⟨rfl, h.symm⟩
  | cons e es => rw [hc] at h; simp at h

/-- A payload that passed Order.validateCreate supplied no tax_amount
(the unknown key would have been rejected). -/
theorem createErrors_nil_tax {req : CreateReq} (h : createErrors req = []) :
    req.tax_amount = none := by
  cases ht : req.tax_amount with
  | none => rfl
  | some t =>
    unfold createErrors at h
    rw [ht] at h
    simp [List.append_eq_nil] at h

/-- A payload that supplies tax_amount always collects the unknown-key
error, so validation cannot succeed. -/
theorem createErrors_ne_nil_of_tax {req : CreateReq} {t : Rat}
    (h : req.tax_amount = some t) : createErrors req ≠ [] := by
  intro hc
  exact Option.noConfusion (h ▸ createErrors_nil_tax hc)

/-- Inversion of Order.validateStatusUpdate on success. -/
theorem validateStatusUpdate_ok {req : StatusUpdateReq} {v : StatusUpdateVal}
    (h : validateStatusUpdate req = .ok v) :
    parseStatus req.status = some v.status ∧ v.notes = req.notes := by
  unfold validateStatusUpdate at h
  cases hp : parseStatus req.status with
  | none => rw [hp] at h; simp at h
  | some s =>
    rw [hp] at h
    cases hn : req.notes with
    | none => rw [hn] at h; simp at h; subst h; simp
    | some n =>
      rw [hn] at h
      by_cases hl : n.length ≤ 1000
      · simp [hl] at h; subst h; simp
      · simp [hl] at h

/-- Inversion of Order.validatePaymentUpdate on success. -/
theorem validatePaymentUpdate_ok {req : PaymentUpdateReq} {v : PaymentUpdateVal}
    (h : validatePaymentUpdate req = .ok v) :
    parsePaymentStatus req.payment_status = some v.payment_status ∧
    v.payment_reference = req.payment_reference ∧ v.notes = req.notes := by
  unfold validatePaymentUpdate at h
  cases hp : parsePaymentStatus req.payment_status with
  | none => rw [hp] at h; simp at h
  | some p =>
    rw [hp] at h
    cases hr : req.payment_reference with
    | some r =>
      rw [hr] at h
      by_cases hlr : r.length ≤ 255
      · cases hn : req.notes with
        | some n =>
          rw [hn] at h
          by_cases hln : n.length ≤ 1000
          · simp [hlr, hln] at h; subst h; simp
          · simp [hlr, hln] at h
        | none => rw [hn] at h; simp [hlr] at h; subst h; simp
      · simp [hlr] at h
    | none =>
      rw [hr] at h
      cases hn : req.notes with
      | some n =>
        rw [hn] at h
        by_cases hln : n.length ≤ 1000
        · simp [hln] at h; subst h; simp
        · simp [hln] at h
      | none => rw [hn] at h; simp at h; subst h; simp

/-- The status UPDATE never touches id, monetary fields, payment fields or
addresses. -/
theorem applyStatusUpdate_frame (o : Order) (v : StatusUpdateVal) (now : Nat) :
    (applyStatusUpdate o v now).id = o.id ∧
    (applyStatusUpdate o v now).total_amount = o.total_amount ∧
    (applyStatusUpdate o v now).subtotal = o.subtotal ∧
    (applyStatusUpdate o v now).tax_amount = o.tax_amount ∧
    (applyStatusUpdate o v now).shipping_amount = o.shipping_amount ∧
    (applyStatusUpdate o v now).discount_amount = o.discount_amount ∧
    (applyStatusUpdate o v now).payment_status = o.payment_status ∧
    (applyStatusUpdate o v now).payment_reference = o.payment_reference := by
  unfold applyStatusUpdate
  split_ifs <;> simp

/-- The status UPDATE always writes status = new_status. -/
theorem applyStatusUpdate_status (o : Order) (v : StatusUpdateVal) (now : Nat) :
    (applyStatusUpdate o v now).status = v.status := by
  unfold applyStatusUpdate
  split_ifs <;> simp

/-- Timestamp effect of the status UPDATE on shipped_at. -/
theorem applyStatusUpdate_shipped_at (o : Order) (v : StatusUpdateVal) (now : Nat) :
    (applyStatusUpdate o v now).shipped_at =
      (if v.status = .shipped then some now
       else if v.status = .delivered ∧ o.shipped_at = none then some now
       else o.shipped_at) := by
  unfold applyStatusUpdate
  rcases hs : v.status <;> split_ifs <;> simp_all

/-- Timestamp effect of the status UPDATE on delivered_at. -/
theorem applyStatusUpdate_delivered_at (o : Order) (v : StatusUpdateVal) (now : Nat) :
    (applyStatusUpdate o v now).delivered_at =
      (if v.status = .delivered then some now else o.delivered_at) := by
  unfold applyStatusUpdate
  rcases hs : v.status <;> split_ifs <;> simp_all

/-- Notes effect of the status UPDATE: replaced only by a truthy value. -/
theorem applyStatusUpdate_notes (o : Order) (v : StatusUpdateVal) (now : Nat) :
    (applyStatusUpdate o v now).notes =
      (if (v.notes.getD "") = "" then o.notes else v.notes.getD "") := by
  unfold applyStatusUpdate
  split_ifs <;> simp_all

/-- The payment UPDATE never touches id, lifecycle status, timestamps or
monetary fields. -/
theorem applyPaymentUpdate_frame (o : Order) (v : PaymentUpdateVal) :
    (applyPaymentUpdate o v).id = o.id ∧
    (applyPaymentUpdate o v).status = o.status ∧
    (applyPaymentUpdate o v).shipped_at = o.shipped_at ∧
    (applyPaymentUpdate o v).delivered_at = o.delivered_at ∧
    (applyPaymentUpdate o v).total_amount = o.total_amount ∧
    (applyPaymentUpdate o v).subtotal = o.subtotal ∧
    (applyPaymentUpdate o v).tax_amount = o.tax_amount ∧
    (applyPaymentUpdate o v).shipping_amount = o.shipping_amount ∧
    (applyPaymentUpdate o v).discount_amount = o.discount_amount := by
  unfold applyPaymentUpdate
  split_ifs <;> simp

/-- The payment UPDATE always writes payment_status = new value. -/
theorem applyPaymentUpdate_payment_status (o : Order) (v : PaymentUpdateVal) :
    (applyPaymentUpdate o v).payment_status = v.payment_status := by
  unfold applyPaymentUpdate
  split_ifs <;> simp

/-- payment_reference is overwritten exactly when a truthy value is supplied. -/
theorem applyPaymentUpdate_reference (o : Order) (v : PaymentUpdateVal) :
    (applyPaymentUpdate o v).payment_reference =
      (if (v.payment_reference.getD "") = "" then o.payment_reference
       else some (v.payment_reference.getD "")) := by
  unfold applyPaymentUpdate
  split_ifs <;> simp_all

/-- Notes effect of the payment UPDATE: replaced only by a truthy value. -/
theorem applyPaymentUpdate_notes (o : Order) (v : PaymentUpdateVal) :
    (applyPaymentUpdate o v).notes =
      (if (v.notes.getD "") = "" then o.notes else v.notes.getD "") := by
  unfold applyPaymentUpdate
  split_ifs <;> simp_all

/-- Inversion of updateStatus on success. -/
theorem updateStatus_ok {st : Store} {i : Nat} {req : StatusUpdateReq} {now : Nat}
    {o2 : Order} {st2 : Store}
    (h : updateStatus st i req now = .ok (o2, st2)) :
    ∃ v o0, validateStatusUpdate req = .ok v ∧ findOrder st i = some o0 ∧
      o2 = applyStatusUpdate o0 v now ∧
      st2 = { st with orders := st.orders.map (fun o => if o.id = i then o2 else o) } := by
  unfold updateStatus at h
  cases hv : validateStatusUpdate req with
  | error m => rw [hv] at h; simp at h
  | ok v =>
    rw [hv] at h
    cases h0 : findOrder st i with
    | none => rw [h0] at h; simp at h
    | some o0 =>
      rw [h0] at h
      simp at h
      exact ⟨v, o0, rfl, rfl, h.1.symm, by rw [← h.1]; exact h.2.symm⟩

/-- Evaluation of updateStatus when validation and lookup succeed. -/
theorem updateStatus_eq {st : Store} {i : Nat} {req : StatusUpdateReq} {now : Nat}
    {v : StatusUpdateVal} {o0 : Order}
    (hv : validateStatusUpdate req = .ok v) (h0 : findOrder st i = some o0) :
    updateStatus st i req now =
      .ok (applyStatusUpdate o0 v now,
        { st with orders :=
            List.map (fun o => if o.id = i then applyStatusUpdate o0 v now else o) st.orders }) := by
  unfold updateStatus
  rw [hv, h0]

/-- Inversion of updatePaymentStatus on success. -/
theorem updatePaymentStatus_ok {st : Store} {i : Nat} {req : PaymentUpdateReq}
    {o2 : Order} {st2 : Store}
    (h : updatePaymentStatus st i req = .ok (o2, st2)) :
    ∃ v o0, validatePaymentUpdate req = .ok v ∧ findOrder st i = some o0 ∧
      o2 = applyPaymentUpdate o0 v ∧
      st2 = { st with orders := st.orders.map (fun o => if o.id = i then o2 else o) } := by
  unfold updatePaymentStatus at h
  cases hv : validatePaymentUpdate req with
  | error m => rw [hv] at h; simp at h
  | ok v =>
    rw [hv] at h
    cases h0 : findOrder st i with
    | none => rw [h0] at h; simp at h
    | some o0 =>
      rw [h0] at h
      simp at h
      exact ⟨v, o0, rfl, rfl, h.1.symm, by rw [← h.1]; exact h.2.symm⟩

/-- Evaluation of updatePaymentStatus when validation and lookup succeed. -/
theorem updatePaymentStatus_eq {st : Store} {i : Nat} {req : PaymentUpdateReq}
    {v : PaymentUpdateVal} {o0 : Order}
    (hv : validatePaymentUpdate req = .ok v) (h0 : findOrder st i = some o0) :
    updatePaymentStatus st i req =
      .ok (applyPaymentUpdate o0 v,
        { st with orders :=
            List.map (fun o => if o.id = i then applyPaymentUpdate o0 v else o) st.orders }) := by
  unfold updatePaymentStatus
  rw [hv, h0]

/-- The first missing product id belongs to a requested item and has no
product row. -/
theorem firstMissingPid_mem {ps : List Product} {items : List OrderItemReq} {pid : Nat}
    (h : firstMissingPid ps items = some pid) :
    ∃ i ∈ items, i.product_id = pid ∧ findProduct ps pid = none := by
  induction items with
  | nil => simp [firstMissingPid] at h
  | cons i rest ih =>
    unfold firstMissingPid at h
    cases hf : findProduct ps i.product_id with
    | none =>
      rw [hf] at h
      simp at h
      exact ⟨i, by simp, h, h ▸ hf⟩
    | some p =>
      rw [hf] at h
      obtain ⟨j, hj, hjp, hjn⟩ := ih h
      exact ⟨j, by simp [hj], hjp, hjn⟩

/-- If some requested item's product id is unresolved, there is a first
unresolved one. -/
theorem firstMissingPid_isSome {ps : List Product} {items : List OrderItemReq}
    (h : ∃ i ∈ items, findProduct ps i.product_id = none) :
    ∃ pid, firstMissingPid ps items = some pid := by
  induction items with
  | nil => simp at h
  | cons i rest ih =>
    unfold firstMissingPid
    cases hf : findProduct ps i.product_id with
    | none => exact ⟨i.product_id, rfl⟩
    | some p =>
      obtain ⟨j, hj, hjn⟩ := h
      rcases List.mem_cons.mp hj with rfl | hj2
      · simp [hf] at hjn
      · exact ih ⟨j, hj2, hjn⟩

/-- The item loop throws "Product with ID <pid> not found" for the first
requested item whose product does not resolve (order_items inserts do not
change the products table it reads from). -/
theorem insertItems_error {pid : Nat} {ps : List Product} :
    ∀ (items : List OrderItemReq) (st : Store) (oid : Nat),
    firstMissingPid ps items = some pid → st.products = ps →
    insertItems st oid items =
      .error ("Product with ID " ++ toString pid ++ " not found") := by
  intro items
  induction items with
  | nil => intro st oid h hps; simp [firstMissingPid] at h
  | cons i rest ih =>
    intro st oid h hps
    subst hps
    unfold firstMissingPid at h
    unfold insertItems
    cases hf : findProduct st.products i.product_id with
    | none =>
      rw [hf] at h
      simp at h
      simp [h]
    | some p =>
      rw [hf] at h
      simp at h
      exact ih _ oid h rfl


/-- A rational has at most two decimal places exactly when it is an integer
number of hundredths. -/
theorem twoDecimal_iff {q : Rat} : twoDecimal q = true ↔ ∃ k : Int, q = (k : Rat) / 100 := by
  constructor
  · intro h
    obtain ⟨c, hc⟩ : q.den ∣ 100 := by simpa [twoDecimal] using h
    have hc2 : (100 : Rat) = (q.den : Rat) * (c : Rat) := by exact_mod_cast hc
    have hden : (q.den : Rat) ≠ 0 := by exact_mod_cast q.den_ne_zero
    refine ⟨q.num * c, ?_⟩
    have key : ((q.num * c : Int) : Rat) = q * 100 := by
      have h3 : ((q.num : Rat) / (q.den : Rat)) * ((q.den : Rat) * (c : Rat)) =
          (q.num : Rat) * (c : Rat) := by
        field_simp
        ring
      calc ((q.num * c : Int) : Rat) = (q.num : Rat) * (c : Rat) := by push_cast; ring
        _ = ((q.num : Rat) / (q.den : Rat)) * ((q.den : Rat) * (c : Rat)) := h3.symm
        _ = q * ((q.den : Rat) * (c : Rat)) := by rw [Rat.num_div_den]
        _ = q * 100 := by rw [← hc2]
    rw [eq_div_iff (by norm_num : (100 : Rat) ≠ 0)]
    exact key.symm
  · rintro ⟨k, rfl⟩
    have h := Rat.den_dvd k 100
    rw [Rat.divInt_eq_div] at h
    simp only [twoDecimal]
    have h2 : (((k : Rat) / 100).den : Int) ∣ (100 : Int) := by exact_mod_cast h
    exact decide_eq_true (Int.ofNat_dvd.mp (by exact_mod_cast h2))

/-- DECIMAL(10,2) storage does not change a value that already has at most
two decimal places. -/
theorem dec2_of_twoDecimal {q : Rat} (h : twoDecimal q = true) : dec2 q = q := by
  obtain ⟨k, rfl⟩ := twoDecimal_iff.mp h
  unfold dec2
  have h1 : ((k : Rat) / 100) * 100 = (k : Rat) := by ring
  rw [h1, round_intCast]

/-- DECIMAL(10,2) rounding distributes over adding a two-decimal value. -/
theorem dec2_add_twoDecimal {a t : Rat} (h : twoDecimal a = true) :
    dec2 (a + t) = a + dec2 t := by
  obtain ⟨k, rfl⟩ := twoDecimal_iff.mp h
  unfold dec2
  have h1 : ((k : Rat) / 100 + t) * 100 = t * 100 + k := by ring
  rw [h1, round_add_int]
  push_cast
  ring

/-- Zero is a two-decimal value. -/
theorem twoDecimal_zero : twoDecimal 0 = true := by decide

/-- Two-decimal values are closed under addition. -/
theorem twoDecimal_add {a b : Rat} (ha : twoDecimal a = true) (hb : twoDecimal b = true) :
    twoDecimal (a + b) = true := by
  obtain ⟨j, rfl⟩ := twoDecimal_iff.mp ha
  obtain ⟨k, rfl⟩ := twoDecimal_iff.mp hb
  exact twoDecimal_iff.mpr ⟨j + k, by push_cast; ring⟩

/-- Two-decimal values are closed under subtraction. -/
theorem twoDecimal_sub {a b : Rat} (ha : twoDecimal a = true) (hb : twoDecimal b = true) :
    twoDecimal (a - b) = true := by
  obtain ⟨j, rfl⟩ := twoDecimal_iff.mp ha
  obtain ⟨k, rfl⟩ := twoDecimal_iff.mp hb
  exact twoDecimal_iff.mpr ⟨j - k, by push_cast; ring⟩

/-- Two-decimal values are closed under multiplication by a quantity. -/
theorem twoDecimal_mul_nat {a : Rat} (n : Nat) (ha : twoDecimal a = true) :
    twoDecimal (a * (n : Rat)) = true := by
  obtain ⟨j, rfl⟩ := twoDecimal_iff.mp ha
  exact twoDecimal_iff.mpr ⟨j * n, by push_cast; ring⟩

/-- The subtotal loop keeps a two-decimal accumulator two-decimal when every
price has at most two decimals. -/
theorem foldl_subtotal_twoDecimal :
    ∀ (items : List OrderItemReq) (acc : Rat),
    (∀ i ∈ items, twoDecimal i.price = true) → twoDecimal acc = true →
    twoDecimal (items.foldl (fun a i => a + i.price * (i.quantity : Rat)) acc) = true := by
  intro items
  induction items with
  | nil => intro acc h hacc; simpa using hacc
  | cons i rest ih =>
    intro acc h hacc
    simp only [List.foldl_cons]
    exact ih _ (fun j hj => h j (List.mem_cons_of_mem _ hj))
      (twoDecimal_add hacc (twoDecimal_mul_nat i.quantity (h i (List.mem_cons_self _ _))))

/-- The subtotal of items with two-decimal prices is two-decimal. -/
theorem subtotalOf_twoDecimal {items : List OrderItemReq}
    (h : ∀ i ∈ items, twoDecimal i.price = true) :
    twoDecimal (subtotalOf items) = true :=
  foldl_subtotal_twoDecimal items 0 h twoDecimal_zero

/-- A guarded error list being empty means the guard held. -/
theorem if_nil_cond {c : Prop} [Decidable c] {msgs : List String}
    (hne : msgs ≠ []) (h : (if c then [] else msgs) = []) : c := by
  by_cases hc : c
  · exact hc
  · rw [if_neg hc] at h
    exact absurd h hne

/-- No item error collected means every item's checks passed. -/
theorem foldr_itemErrors_nil {items : List OrderItemReq}
    (h : items.foldr (fun i acc => itemErrors i ++ acc) [] = []) :
    ∀ i ∈ items, itemErrors i = [] := by
  induction items with
  | nil => simp
  | cons i rest ih =>
    simp only [List.foldr_cons, List.append_eq_nil] at h
    intro j hj
    rcases List.mem_cons.mp hj with rfl | hj2
    · exact h.1
    · exact ih h.2 j hj2

/-- An item with no errors has a non-negative price of at most two
decimals. -/
theorem itemErrors_nil_price {i : OrderItemReq} (h : itemErrors i = []) :
    0 ≤ i.price ∧ twoDecimal i.price = true := by
  unfold itemErrors at h
  obtain ⟨h12, h3⟩ := List.append_eq_nil.mp h
  exact if_nil_cond (by simp) h3

/-- A payload that passed the creation schema has two-decimal prices,
shipping_amount and discount_amount (after Joi defaults). -/
theorem createErrors_nil_spec {req : CreateReq} (h : createErrors req = []) :
    (∀ i ∈ req.items, 0 ≤ i.price ∧ twoDecimal i.price = true) ∧
    twoDecimal ((req.shipping_amount).getD 0) = true ∧
    twoDecimal ((req.discount_amount).getD 0) = true := by
  unfold createErrors at h
  obtain ⟨h2, hTax⟩ := List.append_eq_nil.mp h
  obtain ⟨h3, hShip⟩ := List.append_eq_nil.mp h2
  obtain ⟨h4, hDisc⟩ := List.append_eq_nil.mp h3
  obtain ⟨h5, hNotes⟩ := List.append_eq_nil.mp h4
  obtain ⟨h6, hPm⟩ := List.append_eq_nil.mp h5
  obtain ⟨h7, hBill⟩ := List.append_eq_nil.mp h6
  obtain ⟨h8, hAddr⟩ := List.append_eq_nil.mp h7
  obtain ⟨hUser, hItems⟩ := List.append_eq_nil.mp h8
  refine ⟨?_, ?_, ?_⟩
  · intro i hi
    have hfold : req.items.foldr (fun i acc => itemErrors i ++ acc) [] = [] := by
      by_cases he : req.items.isEmpty
      · rw [if_pos he] at hItems
        simp at hItems
      · rwa [if_neg he] at hItems
    exact itemErrors_nil_price (foldr_itemErrors_nil hfold i hi)
  · cases hs : req.shipping_amount with
    | none => simp [hs]; decide
    | some v =>
      rw [hs] at hShip
      have := if_nil_cond (by simp) hShip
      simpa [hs] using this.2
  · cases hd : req.discount_amount with
    | none => simp [hd]; decide
    | some v =>
      rw [hd] at hDisc
      have := if_nil_cond (by simp) hDisc
      simpa [hd] using this.2

/-- Inversion of create on success: validation succeeded and the returned
order carries the computed pricing fields. -/
theorem create_ok_fields {st : Store} {req : CreateReq} {n : String} {o : Order}
    {st2 : Store} (h : create st req n = (.ok o, st2)) :
    ∃ v, validateCreate req = .ok v ∧
      o.subtotal = dec2 (subtotalOf v.items) ∧
      o.tax_amount = dec2 (taxOf v.tax_amount (subtotalOf v.items)) ∧
      o.shipping_amount = dec2 v.shipping_amount ∧
      o.discount_amount = dec2 v.discount_amount ∧
      o.total_amount = dec2 (subtotalOf v.items + taxOf v.tax_amount (subtotalOf v.items) +
        v.shipping_amount - v.discount_amount) := by
  unfold create at h
  cases hv : validateCreate req with
  | error m => rw [hv] at h; simp at h
  | ok v =>
    rw [hv] at h
    split at h
    · simp at h
    · rename_i x v2 heq
      injection heq with heq
      subst heq
      dsimp only at h
      split at h
      · simp at h
      · rw [Prod.mk.injEq] at h
        obtain ⟨ho, hs⟩ := h
        injection ho with ho
        subst ho
        refine ⟨v, rfl, ?_, ?_, ?_, ?_, ?_⟩ <;> simp [Order.calculateTotal, Order.stored]

/-- C1: for every creation request that passes validation but references a
product id with no product row, create fails with "Product with ID <pid> not
found" naming an unresolved requested product id, and the store afterwards is
exactly the store before: no order header row and no order-item rows from the
request survive (full rollback). -/
theorem create_missing_product_rollback (st : Store) (req : CreateReq) (n : String)
    (hv : createErrors req = [])
    (hm : ∃ i ∈ req.items, findProduct st.products i.product_id = none) :
    ∃ pid, (∃ i ∈ req.items, i.product_id = pid ∧ findProduct st.products pid = none) ∧
      create st req n = (.error ("Product with ID " ++ toString pid ++ " not found"), st) := by
  obtain ⟨pid, hfm⟩ := firstMissingPid_isSome hm
  refine ⟨pid, firstMissingPid_mem hfm, ?_⟩
  unfold create validateCreate
  rw [hv]
  dsimp only
  rw [insertItems_error req.items _ _ hfm]
  rfl

/-- C1 witness: concrete request with items for products 1 (present) and 99
(absent) against the one-product store. -/
theorem create_missing_product_rollback_witness :
    createErrors reqMissing = [] ∧
    (∃ i ∈ reqMissing.items, findProduct st0.products i.product_id = none) ∧
    ∃ pid, (∃ i ∈ reqMissing.items, i.product_id = pid ∧ findProduct st0.products pid = none) ∧
      create st0 reqMissing "ORD-X" =
        (.error ("Product with ID " ++ toString pid ++ " not found"), st0) :=
  ⟨by decide, by decide,
    create_missing_product_rollback st0 reqMissing "ORD-X" (by decide) (by decide)⟩

/-- C5 counterexample: a creation request that explicitly supplies a
tax_amount does NOT pass the validation gate — Joi rejects the unknown key —
so the supplied value is never used: create fails and the store is
unchanged. -/
theorem supplied_tax_rejected_counterexample :
    validateCreate reqTax = .error "Validation error: \"tax_amount\" is not allowed" ∧
    create st0 reqTax "ORD-T" =
      (.error "Validation error: \"tax_amount\" is not allowed", st0) := by
  decide

/-- C5 amended: every creation request that explicitly supplies a tax amount
is rejected by the validation gate (unknown key "tax_amount"), so no created
order ever uses a caller-supplied tax verbatim; create fails with the
validation error and leaves the store unchanged. -/
theorem supplied_tax_always_rejected (st : Store) (req : CreateReq) (t : Rat) (n : String)
    (h : req.tax_amount = some t) :
    ∃ msg, validateCreate req = .error msg ∧ create st req n = (.error msg, st) := by
  have hne : createErrors req ≠ [] := createErrors_ne_nil_of_tax h
  cases hc : createErrors req with
  | nil => exact absurd hc hne
  | cons e es =>
    refine ⟨"Validation error: " ++ String.intercalate ", " (e :: es), ?_, ?_⟩
    · unfold validateCreate; rw [hc]
    · unfold create validateCreate; rw [hc]

/-- C5 amended witness: the concrete supplied-tax payload. -/
theorem supplied_tax_always_rejected_witness :
    reqTax.tax_amount = some 5 ∧
    ∃ msg, validateCreate reqTax = .error msg ∧
      create st0 reqTax "ORD-T" = (.error msg, st0) :=
  ⟨rfl, supplied_tax_always_rejected st0 reqTax 5 "ORD-T" rfl⟩

/-- Running the spec scenario: create against the one-product store yields
exactly the scenario order and store. -/
theorem create_scenario_eq :
    create st0 req0 "ORD-1" = (.ok orderScenario, storeScenario) := by
  simp +decide [create, validateCreate, createErrors, itemErrors, validAddress, twoDecimal,
    insertItems, findProduct, Order.calculateTotal, Order.stored, dec2, subtotalOf, taxOf,
    req0, addr0, st0, orderScenario, storeScenario, itemRowScenario]
  norm_num [round_eq]

/-- C4: for every valid creation request with no explicit tax amount, the
created order — the header row re-read from the DECIMAL(10,2) columns —
carries tax_amount = round(S * 0.075, 2), where S is the request subtotal
(itself stored unchanged, being a two-decimal value); the scenario items
[(product 1, quantity 2, price 10.00)] with shipping_amount 0 and
discount_amount 0 yields subtotal 20.00, tax_amount 1.50, total_amount
21.50. -/
theorem default_tax_rounded :
    (∀ (st : Store) (req : CreateReq) (n : String) (o : Order) (st2 : Store),
        req.tax_amount = none → create st req n = (.ok o, st2) →
        o.tax_amount = roundTo2dp (subtotalOf req.items * 0.075) ∧
        o.subtotal = subtotalOf req.items) ∧
    (create st0 req0 "ORD-1").1 = .ok orderScenario ∧
    orderScenario.subtotal = 20 ∧ orderScenario.tax_amount = 1.5 ∧
    orderScenario.total_amount = 21.5 := by
  refine ⟨?_, by rw [create_scenario_eq], rfl, rfl, rfl⟩
  intro st req n o st2 hnone h
  obtain ⟨v, hv, hsub, htax, hship, hdisc, htot⟩ := create_ok_fields h
  obtain ⟨hce, hveq⟩ := validateCreate_ok hv
  have hspec := createErrors_nil_spec hce
  have hitems : v.items = req.items := by rw [hveq]
  have hvtax : v.tax_amount = none := by rw [hveq]; exact hnone
  have h2S : twoDecimal (subtotalOf req.items) = true :=
    subtotalOf_twoDecimal (fun i hi => (hspec.1 i hi).2)
  constructor
  · rw [htax, hvtax, hitems]
    rfl
  · rw [hsub, hitems, dec2_of_twoDecimal h2S]

/-- C4 witness: the scenario run, whose subtotal-20.00 order carries
tax_amount = round(20 * 0.075, 2) = 1.50. -/
theorem default_tax_rounded_witness :
    req0.tax_amount = none ∧
    create st0 req0 "ORD-1" = (.ok orderScenario, storeScenario) ∧
    orderScenario.tax_amount = roundTo2dp (subtotalOf req0.items * 0.075) ∧
    orderScenario.subtotal = subtotalOf req0.items :=
  ⟨rfl, create_scenario_eq,
    (default_tax_rounded.1 st0 req0 "ORD-1" orderScenario storeScenario rfl
      create_scenario_eq).1,
    (default_tax_rounded.1 st0 req0 "ORD-1" orderScenario storeScenario rfl
      create_scenario_eq).2⟩

/-- C2: every order returned by create satisfies
total_amount = subtotal + tax_amount + shipping_amount - discount_amount with
subtotal the sum of price * quantity over the request's items, and both
update_status and update_payment_status leave every monetary field of the
updated row unchanged. -/
theorem total_amount_invariant :
    (∀ (st : Store) (req : CreateReq) (n : String) (o : Order) (st2 : Store),
        create st req n = (.ok o, st2) →
        o.total_amount = o.subtotal + o.tax_amount + o.shipping_amount - o.discount_amount ∧
        o.subtotal = subtotalOf req.items) ∧
    (∀ (st : Store) (i : Nat) (req : StatusUpdateReq) (now : Nat) (o0 o2 : Order)
        (st2 : Store), findOrder st i = some o0 → updateStatus st i req now = .ok (o2, st2) →
        o2.total_amount = o0.total_amount ∧ o2.subtotal = o0.subtotal ∧
        o2.tax_amount = o0.tax_amount ∧ o2.shipping_amount = o0.shipping_amount ∧
        o2.discount_amount = o0.discount_amount) ∧
    (∀ (st : Store) (i : Nat) (req : PaymentUpdateReq) (o0 o2 : Order) (st2 : Store),
        findOrder st i = some o0 → updatePaymentStatus st i req = .ok (o2, st2) →
        o2.total_amount = o0.total_amount ∧ o2.subtotal = o0.subtotal ∧
        o2.tax_amount = o0.tax_amount ∧ o2.shipping_amount = o0.shipping_amount ∧
        o2.discount_amount = o0.discount_amount) := by
  refine ⟨?_, ?_, ?_⟩
  · intro st req n o st2 h
    obtain ⟨v, hv, hsub, htax, hship, hdisc, htot⟩ := create_ok_fields h
    obtain ⟨hce, hveq⟩ := validateCreate_ok hv
    have hspec := createErrors_nil_spec hce
    have hitems : v.items = req.items := by rw [hveq]
    have hshipv : v.shipping_amount = (req.shipping_amount).getD 0 := by rw [hveq]
    have hdiscv : v.discount_amount = (req.discount_amount).getD 0 := by rw [hveq]
    have h2S : twoDecimal (subtotalOf v.items) = true := by
      rw [hitems]
      exact subtotalOf_twoDecimal (fun i hi => (hspec.1 i hi).2)
    have h2ship : twoDecimal v.shipping_amount = true := by rw [hshipv]; exact hspec.2.1
    have h2disc : twoDecimal v.discount_amount = true := by rw [hdiscv]; exact hspec.2.2
    constructor
    · rw [htot, hsub, htax, hship, hdisc]
      rw [dec2_of_twoDecimal h2S, dec2_of_twoDecimal h2ship, dec2_of_twoDecimal h2disc]
      have hA : twoDecimal (subtotalOf v.items + v.shipping_amount - v.discount_amount) =
          true := twoDecimal_sub (twoDecimal_add h2S h2ship) h2disc
      have hre : subtotalOf v.items + taxOf v.tax_amount (subtotalOf v.items) +
          v.shipping_amount - v.discount_amount =
          (subtotalOf v.items + v.shipping_amount - v.discount_amount) +
          taxOf v.tax_amount (subtotalOf v.items) := by ring
      rw [hre, dec2_add_twoDecimal hA]
      ring
    · rw [hitems] at h2S
      rw [hsub, hitems, dec2_of_twoDecimal h2S]
  · intro st i req now o0 o2 st2 h0 h
    obtain ⟨v, o0x, hv, h0x, ho2, hst2⟩ := updateStatus_ok h
    rw [h0] at h0x
    injection h0x with h0x
    subst h0x
    subst ho2
    obtain ⟨_, ht, hs, hx, hsh, hd, _, _⟩ := applyStatusUpdate_frame o0 v now
    exact ⟨ht, hs, hx, hsh, hd⟩
  · intro st i req o0 o2 st2 h0 h
    obtain ⟨v, o0x, hv, h0x, ho2, hst2⟩ := updatePaymentStatus_ok h
    rw [h0] at h0x
    injection h0x with h0x
    subst h0x
    subst ho2
    obtain ⟨_, _, _, _, ht, hs, hx, hsh, hd⟩ := applyPaymentUpdate_frame o0 v
    exact ⟨ht, hs, hx, hsh, hd⟩

/-- C2 witness: the invariant at the scenario creation, and monetary
preservation across one status update and one payment update of a stored
order. -/
theorem total_amount_invariant_witness :
    (create st0 req0 "ORD-1" = (.ok orderScenario, storeScenario) ∧
      orderScenario.total_amount = orderScenario.subtotal + orderScenario.tax_amount +
        orderScenario.shipping_amount - orderScenario.discount_amount ∧
      orderScenario.subtotal = subtotalOf req0.items) ∧
    (findOrder stOld 1 = some ordOld ∧
      updateStatus stOld 1 { status := "confirmed", notes := none } 7 =
        .ok (ordOldConfirmed, stOldConfirmed) ∧
      ordOldConfirmed.total_amount = ordOld.total_amount) ∧
    (updatePaymentStatus stOld 1
        { payment_status := "paid", payment_reference := none, notes := none } =
        .ok (ordOldPaid, stOldPaid) ∧
      ordOldPaid.total_amount = ordOld.total_amount) :=
  ⟨⟨create_scenario_eq,
      total_amount_invariant.1 st0 req0 "ORD-1" orderScenario storeScenario
        create_scenario_eq⟩,
    ⟨by decide, by decide,
      (total_amount_invariant.2.1 stOld 1 { status := "confirmed", notes := none } 7
        ordOld ordOldConfirmed stOldConfirmed (by decide) (by decide)).1⟩,
    ⟨by decide,
      (total_amount_invariant.2.2 stOld 1
        { payment_status := "paid", payment_reference := none, notes := none }
        ordOld ordOldPaid stOldPaid (by decide) (by decide)).1⟩⟩

/-- C3: update_status(order_id, delivered) stamps delivered_at with the
current time, leaves shipped_at non-null afterwards regardless of history,
and backfills shipped_at with the current time when it was still null. -/
theorem delivered_always_sets_shipped (st : Store) (i : Nat) (nts : Option String)
    (now : Nat) (o2 : Order) (st2 : Store)
    (h : updateStatus st i { status := "delivered", notes := nts } now = .ok (o2, st2)) :
    o2.delivered_at = some now ∧ o2.shipped_at ≠ none ∧
    (∀ o0, findOrder st i = some o0 → o0.shipped_at = none → o2.shipped_at = some now) := by
  obtain ⟨v, o0, hv, h0, ho2, hst2⟩ := updateStatus_ok h
  obtain ⟨hp, hn⟩ := validateStatusUpdate_ok hv
  have hst : v.status = .delivered := by
    have h2 : (some OrderStatus.delivered : Option OrderStatus) = some v.status := by
      rw [← hp]
      rfl
    injection h2 with h2
    exact h2.symm
  subst ho2
  refine ⟨?_, ?_, ?_⟩
  · rw [applyStatusUpdate_delivered_at, hst]; simp
  · rw [applyStatusUpdate_shipped_at, hst]
    by_cases hsh : o0.shipped_at = none
    · simp [hsh]
    · simp [hsh]
  · intro o0x h0x hnone
    rw [h0] at h0x
    injection h0x with h0x
    subst h0x
    rw [applyStatusUpdate_shipped_at, hst]
    simp [hnone]

/-- C3 witness: a pending order with no timestamps, delivered directly at
time 42: both timestamps come out as 42. -/
theorem delivered_always_sets_shipped_witness :
    updateStatus stOld 1 { status := "delivered", notes := none } 42 =
      .ok (ordOldDelivered, stOldDelivered) ∧
    ordOldDelivered.delivered_at = some 42 ∧ ordOldDelivered.shipped_at ≠ none ∧
    (∀ o0, findOrder stOld 1 = some o0 → o0.shipped_at = none →
      ordOldDelivered.shipped_at = some 42) :=
  ⟨by decide,
    delivered_always_sets_shipped stOld 1 none 42 ordOldDelivered stOldDelivered (by decide)⟩

/-- C6: for every stored order and every new status drawn from the
seven-value enum, update_status succeeds and writes the new status over the
prior one unconditionally — no transition-legality check. -/
theorem status_overwritten_unconditionally (st : Store) (i : Nat) (o0 : Order)
    (ns : OrderStatus) (now : Nat) (h0 : findOrder st i = some o0) :
    ∃ o2 st2, updateStatus st i { status := statusToString ns, notes := none } now =
        .ok (o2, st2) ∧ o2.status = ns ∧ findOrder st2 i = some o2 := by
  have hp : parseStatus (statusToString ns) = some ns := by cases ns <;> rfl
  have hv : validateStatusUpdate { status := statusToString ns, notes := none } =
      .ok { status := ns, notes := none } := by
    unfold validateStatusUpdate
    rw [hp]
  refine ⟨_, _, updateStatus_eq hv h0, applyStatusUpdate_status o0 _ now, ?_⟩
  have hgid : (applyStatusUpdate o0 { status := ns, notes := none } now).id = i := by
    rw [(applyStatusUpdate_frame o0 _ now).1]
    exact findOrder_id h0
  have h0x : st.orders.find? (fun o => o.id = i) = some o0 := h0
  exact find_map_update st.orders i o0 _ h0x hgid

/-- C6 witness: a delivered order is set back to pending. -/
theorem status_overwritten_unconditionally_witness :
    findOrder stDone 1 = some ordDone ∧ ordDone.status = .delivered ∧
    ∃ o2 st2, updateStatus stDone 1
        { status := statusToString .pending, notes := none } 50 = .ok (o2, st2) ∧
      o2.status = .pending ∧ findOrder st2 1 = some o2 :=
  ⟨by decide, rfl,
    status_overwritten_unconditionally stDone 1 ordDone .pending 50 (by decide)⟩

/-- C7: update_payment_status overwrites payment_status (and, when a
non-empty reference is supplied, payment_reference) while leaving the
shipping-lifecycle status field and both timestamps unchanged, and persists
the updated row. -/
theorem payment_update_frame (st : Store) (i : Nat) (o0 : Order)
    (req : PaymentUpdateReq) (o2 : Order) (st2 : Store)
    (h0 : findOrder st i = some o0)
    (h : updatePaymentStatus st i req = .ok (o2, st2)) :
    o2.status = o0.status ∧ o2.shipped_at = o0.shipped_at ∧
    o2.delivered_at = o0.delivered_at ∧
    parsePaymentStatus req.payment_status = some o2.payment_status ∧
    (∀ r, req.payment_reference = some r → r ≠ "" → o2.payment_reference = some r) ∧
    findOrder st2 i = some o2 := by
  obtain ⟨v, o0x, hv, h0x, ho2, hst2⟩ := updatePaymentStatus_ok h
  rw [h0] at h0x
  injection h0x with h0x
  subst h0x
  obtain ⟨hps, hpr, hnt⟩ := validatePaymentUpdate_ok hv
  obtain ⟨hid, hstat, hshp, hdel, _, _, _, _, _⟩ := applyPaymentUpdate_frame o0 v
  subst ho2
  refine ⟨hstat, hshp, hdel, ?_, ?_, ?_⟩
  · rw [applyPaymentUpdate_payment_status]; exact hps
  · intro r hr hrne
    rw [applyPaymentUpdate_reference, hpr, hr]
    simp [hrne]
  · subst hst2
    have hgid : (applyPaymentUpdate o0 v).id = i := by rw [hid]; exact findOrder_id h0
    exact find_map_update st.orders i o0 _ h0 hgid

/-- C7 witness: update_payment_status(1, paid, reference TXN123) against the
stored order: status and timestamps untouched, payment fields written. -/
theorem payment_update_frame_witness :
    findOrder stOld 1 = some ordOld ∧
    updatePaymentStatus stOld 1
        { payment_status := "paid", payment_reference := some "TXN123", notes := none } =
      .ok (ordOldPaidRef, stOldPaidRef) ∧
    (ordOldPaidRef.status = ordOld.status ∧
      ordOldPaidRef.shipped_at = ordOld.shipped_at ∧
      ordOldPaidRef.delivered_at = ordOld.delivered_at ∧
      parsePaymentStatus "paid" = some ordOldPaidRef.payment_status ∧
      (∀ r, (some "TXN123" : Option String) = some r → r ≠ "" →
        ordOldPaidRef.payment_reference = some r) ∧
      findOrder stOldPaidRef 1 = some ordOldPaidRef) :=
  ⟨by decide, by decide,
    payment_update_frame stOld 1 ordOld
      { payment_status := "paid", payment_reference := some "TXN123", notes := none }
      ordOldPaidRef stOldPaidRef (by decide) (by decide)⟩

/-- C8 counterexample: a status update supplying notes = "" passes
validation and succeeds, yet the stored notes remain "old" rather than
becoming the supplied empty string, so "the stored notes field afterward
equals exactly the supplied notes" fails when the supplied notes are "". -/
theorem notes_empty_supplied_counterexample :
    updateStatus stOld 1 { status := "confirmed", notes := some "" } 5 =
      .ok (ordOldConfirmed, stOldConfirmed) ∧
    ordOldConfirmed.notes = "old" ∧ ("old" : String) ≠ "" := by
  exact ⟨by decide, by decide, by decide⟩

/-- C8 amended: for every status update supplying NON-EMPTY notes, the
stored notes afterward equal exactly the supplied notes — the previous
content is fully replaced, never appended to. -/
theorem nonempty_notes_replace (st : Store) (i : Nat) (s m : String) (now : Nat)
    (o2 : Order) (st2 : Store) (hm : m ≠ "")
    (h : updateStatus st i { status := s, notes := some m } now = .ok (o2, st2)) :
    o2.notes = m ∧ findOrder st2 i = some o2 := by
  obtain ⟨v, o0, hv, h0, ho2, hst2⟩ := updateStatus_ok h
  obtain ⟨hp, hn⟩ := validateStatusUpdate_ok hv
  subst ho2
  have hnotes : (applyStatusUpdate o0 v now).notes = m := by
    rw [applyStatusUpdate_notes, hn]
    simp [hm]
  refine ⟨hnotes, ?_⟩
  subst hst2
  have hgid : (applyStatusUpdate o0 v now).id = i := by
    rw [(applyStatusUpdate_frame o0 v now).1]
    exact findOrder_id h0
  exact find_map_update st.orders i o0 _ h0 hgid

/-- C8 amended witness: replacing notes "old" with "call before delivery". -/
theorem nonempty_notes_replace_witness :
    ("call before delivery" : String) ≠ "" ∧
    updateStatus stOld 1 { status := "confirmed", notes := some "call before delivery" } 7 =
      .ok (ordOldNoted, stOldNoted) ∧
    ordOldNoted.notes = "call before delivery" ∧
    findOrder stOldNoted 1 = some ordOldNoted :=
  ⟨by decide, by decide,
    nonempty_notes_replace stOld 1 "confirmed" "call before delivery" 7 ordOldNoted
      stOldNoted (by decide) (by decide)⟩

/-- C9: no update operation clears shipped_at or delivered_at:
update_payment_status preserves both exactly, update_status never turns a
non-null timestamp null, and a repeated shipped transition overwrites
shipped_at with the new current time. -/
theorem timestamps_never_cleared :
    (∀ (st : Store) (i : Nat) (req : StatusUpdateReq) (now : Nat) (o0 o2 : Order)
        (st2 : Store), findOrder st i = some o0 →
        updateStatus st i req now = .ok (o2, st2) →
        (o0.shipped_at ≠ none → o2.shipped_at ≠ none) ∧
        (o0.delivered_at ≠ none → o2.delivered_at ≠ none)) ∧
    (∀ (st : Store) (i : Nat) (req : PaymentUpdateReq) (o0 o2 : Order) (st2 : Store),
        findOrder st i = some o0 → updatePaymentStatus st i req = .ok (o2, st2) →
        o2.shipped_at = o0.shipped_at ∧ o2.delivered_at = o0.delivered_at) ∧
    (∀ (st : Store) (i : Nat) (nts : Option String) (now : Nat) (o0 o2 : Order)
        (st2 : Store), findOrder st i = some o0 →
        updateStatus st i { status := "shipped", notes := nts } now = .ok (o2, st2) →
        o2.shipped_at = some now) := by
  refine ⟨?_, ?_, ?_⟩
  · intro st i req now o0 o2 st2 h0 h
    obtain ⟨v, o0x, hv, h0x, ho2, hst2⟩ := updateStatus_ok h
    rw [h0] at h0x
    injection h0x with h0x
    subst h0x
    subst ho2
    constructor
    · intro hne
      rw [applyStatusUpdate_shipped_at]
      split_ifs with h1 h2
      · simp
      · simp
      · exact hne
    · intro hne
      rw [applyStatusUpdate_delivered_at]
      split_ifs with h1
      · simp
      · exact hne
  · intro st i req o0 o2 st2 h0 h
    obtain ⟨v, o0x, hv, h0x, ho2, hst2⟩ := updatePaymentStatus_ok h
    rw [h0] at h0x
    injection h0x with h0x
    subst h0x
    subst ho2
    obtain ⟨_, _, hshp, hdel, _, _, _, _, _⟩ := applyPaymentUpdate_frame o0 v
    exact ⟨hshp, hdel⟩
  · intro st i nts now o0 o2 st2 h0 h
    obtain ⟨v, o0x, hv, h0x, ho2, hst2⟩ := updateStatus_ok h
    obtain ⟨hp, hn⟩ := validateStatusUpdate_ok hv
    have hst : v.status = .shipped := by
      have h2 : (some OrderStatus.shipped : Option OrderStatus) = some v.status := by
        rw [← hp]
        rfl
      injection h2 with h2
      exact h2.symm
    subst ho2
    rw [applyStatusUpdate_shipped_at, hst]
    simp

/-- C9 witness: a delivered order with timestamps 10/11 keeps them non-null
when moved back to pending and under a payment update, and a repeated
shipped transition at time 99 overwrites shipped_at. -/
theorem timestamps_never_cleared_witness :
    (findOrder stDone 1 = some ordDone ∧
      updateStatus stDone 1 { status := "pending", notes := none } 50 =
        .ok (ordDonePending, stDonePending) ∧
      (ordDone.shipped_at ≠ none → ordDonePending.shipped_at ≠ none) ∧
      (ordDone.delivered_at ≠ none → ordDonePending.delivered_at ≠ none)) ∧
    (updatePaymentStatus stDone 1
        { payment_status := "paid", payment_reference := none, notes := none } =
        .ok (ordDonePaid, stDonePaid) ∧
      ordDonePaid.shipped_at = ordDone.shipped_at ∧
      ordDonePaid.delivered_at = ordDone.delivered_at) ∧
    (updateStatus stDone 1 { status := "shipped", notes := none } 99 =
        .ok (ordDoneShipped, stDoneShipped) ∧
      ordDoneShipped.shipped_at = some 99) :=
  ⟨⟨by decide, by decide,
      timestamps_never_cleared.1 stDone 1 { status := "pending", notes := none } 50
        ordDone ordDonePending stDonePending (by decide) (by decide)⟩,
    ⟨by decide,
      timestamps_never_cleared.2.1 stDone 1
        { payment_status := "paid", payment_reference := none, notes := none }
        ordDone ordDonePaid stDonePaid (by decide) (by decide)⟩,
    ⟨by decide,
      timestamps_never_cleared.2.2 stDone 1 none 99 ordDone ordDoneShipped stDoneShipped
        (by decide) (by decide)⟩⟩

/-- C10: notes = "" passes validation on both update operations (the schemas
allow empty notes) but leaves the stored notes unchanged rather than
clearing them: only a non-empty notes value replaces the stored notes. -/
theorem empty_notes_validated_but_ignored :
    (∀ (st : Store) (i : Nat) (o0 : Order) (s : String) (ns : OrderStatus) (now : Nat),
        findOrder st i = some o0 → parseStatus s = some ns →
        ∃ o2 st2, updateStatus st i { status := s, notes := some "" } now =
          .ok (o2, st2) ∧ o2.notes = o0.notes) ∧
    (∀ (st : Store) (i : Nat) (o0 : Order) (p : String) (pp : PaymentStatus),
        findOrder st i = some o0 → parsePaymentStatus p = some pp →
        ∃ o2 st2, updatePaymentStatus st i
            { payment_status := p, payment_reference := none, notes := some "" } =
            .ok (o2, st2) ∧ o2.notes = o0.notes) := by
  constructor
  · intro st i o0 s ns now h0 hp
    have hv : validateStatusUpdate { status := s, notes := some "" } =
        .ok { status := ns, notes := some "" } := by
      unfold validateStatusUpdate
      rw [hp]
      rfl
    refine ⟨_, _, updateStatus_eq hv h0, ?_⟩
    rw [applyStatusUpdate_notes]
    simp
  · intro st i o0 p pp h0 hp
    have hv : validatePaymentUpdate
        { payment_status := p, payment_reference := none, notes := some "" } =
        .ok { payment_status := pp, payment_reference := none, notes := some "" } := by
      unfold validatePaymentUpdate
      rw [hp]
      rfl
    refine ⟨_, _, updatePaymentStatus_eq hv h0, ?_⟩
    rw [applyPaymentUpdate_notes]
    simp

/-- C10 witness: empty notes on a status update and a payment update of the
stored order with notes "old". -/
theorem empty_notes_validated_but_ignored_witness :
    (findOrder stOld 1 = some ordOld ∧ parseStatus "processing" = some .processing ∧
      ∃ o2 st2, updateStatus stOld 1 { status := "processing", notes := some "" } 3 =
        .ok (o2, st2) ∧ o2.notes = ordOld.notes) ∧
    (parsePaymentStatus "failed" = some .failed ∧
      ∃ o2 st2, updatePaymentStatus stOld 1
          { payment_status := "failed", payment_reference := none, notes := some "" } =
          .ok (o2, st2) ∧ o2.notes = ordOld.notes) :=
  ⟨⟨by decide, rfl,
      empty_notes_validated_but_ignored.1 stOld 1 ordOld "processing" .processing 3
        (by decide) rfl⟩,
    ⟨rfl,
      empty_notes_validated_but_ignored.2 stOld 1 ordOld "failed" .failed
        (by decide) rfl⟩⟩
